import Mathlib

/-!
Verification development for `src/cross_window_rpc.js` (cross-window RPC over
`window.postMessage`): caller (`callCrossWindowExecutor`), executor
(`setupCrossWindowExecutor`) and relay (`setupCrossWindowMessageRelay`).

The JavaScript is shallowly embedded: the value universe is a small inductive
of the JS values the protocol manipulates, messages are records whose fields
default to `undefined`, and each registered listener becomes a pure step
function on its explicit state.  Each browsing context is single threaded, so
a run is a fold of the step function over the sequence of delivered events.
-/

/-- JS values occurring in the protocol.  Numbers are modelled as integers
(the protocol only manipulates integral call indices); functions and plain
objects are identified by an opaque id, mirroring reference identity. -/
inductive JSVal where
  | undef
  | null
  | bool (b : Bool)
  | num (n : Int)
  | str (s : String)
  | fn (id : Nat)
  | obj (id : Nat)
deriving DecidableEq, Repr

/-- JS strict equality `===` on the modelled values.  (`NaN` and `-0`, where
`===` deviates from equality, do not arise with integer-valued numbers.) -/
def strictEq : JSVal → JSVal → Bool
  | .undef, .undef => true
  | .null, .null => true
  | .bool a, .bool b => a == b
  | .num a, .num b => a == b
  | .str a, .str b => a == b
  | .fn a, .fn b => a == b
  | .obj a, .obj b => a == b
  | _, _ => false

/-- JS truthiness, as used by `if (x)` and `!!x` in the source. -/
def truthy : JSVal → Bool
  | .undef => false
  | .null => false
  | .bool b => b
  | .num n => n != 0
  | .str s => s != ""
  | .fn _ => true
  | .obj _ => true

/-- `x === undefined` as a boolean test. -/
def isUndef : JSVal → Bool
  | .undef => true
  | _ => false

/-- JS `ToString` as used by template literals (`${x}`).  User-defined
`toString` overrides on objects are not modelled (plain objects display as
`[object Object]`); no claim depends on the display of functions/objects. -/
def jsStr : JSVal → String
  | .undef => "undefined"
  | .null => "null"
  | .bool b => if b then "true" else "false"
  | .num n => toString n
  | .str s => s
  | .fn _ => "function"
  | .obj _ => "[object Object]"

/-- An explicit `x.toString()` call: throws a `TypeError` when the receiver
is `undefined` or `null` (modelled as `.error`), otherwise as `jsStr`. -/
def toStringCall : JSVal → Except Unit String
  | .undef => .error ()
  | .null => .error ()
  | v => .ok (jsStr v)

/-- The message objects travelling over `postMessage`.  A field that the
sender did not set reads as `undefined`.  `args` is `some xs` exactly when
the `args` field is an array (the only case the executor distinguishes, via
`Array.isArray`); `result` is `some v` exactly when the `result` key is
present (the executor never writes `undefined`/`null` into it). -/
structure JMsg where
  commIndex : JSVal := .undef
  commChannel : JSVal := .undef
  commType : JSVal := .undef
  method : JSVal := .undef
  args : Option (List JSVal) := none
  success : JSVal := .undef
  result : Option JSVal := none
deriving DecidableEq, Repr

/-- A delivered `message` event: `data` is `none` when `event.data` is falsy
(the guard `if (event.data)` / `if (request)` rejects it), `source` is the
originating window reference (`none` models a null `event.source`). -/
structure JEvent where
  data : Option JMsg
  source : Option Nat
deriving DecidableEq, Repr


-- ######### RPC SENDER SIDE (`callCrossWindowExecutor`, lines 137-204)

/-- The parameters an outstanding call closes over: its allocated
`callIndex`, the `commChannel`, and the `method` name. -/
structure CallParams where
  callIndex : Int
  commChannel : String
  method : String
deriving DecidableEq, Repr

/-- One recorded `resolve`/`reject` invocation of the pending call's
promise executor. -/
inductive Settle where
  /-- `resolve(response.result)` (taken when `response.result` is truthy). -/
  | resolvedWith (v : JSVal)
  /-- `resolve()` — resolution with no value. -/
  | resolvedUnit
  /-- `reject(response.result)` (taken when `response.result` is truthy). -/
  | rejectedWith (v : JSVal)
  /-- `reject(new Error("Remote call returned with success = false. No error message given."))`. -/
  | rejectedGeneric
  /-- `reject(new Error(timeoutMessage t))`, from the decay-timeout callback. -/
  | rejectedTimeout (t : Nat)
deriving DecidableEq, Repr

/-- Caller-side state of one pending call: whether `handleResponse` is still
registered on `window`, whether the decay timer is still armed, and the log
of promise settlements performed so far. -/
structure CallerState where
  registered : Bool
  timerArmed : Bool
  settled : List Settle
deriving DecidableEq, Repr

/-- State right after `callCrossWindowExecutor`'s promise executor has run:
the listener is registered and the decay timer armed.  (The body runs
synchronously, so no message event can be delivered between
`addEventListener` and `setTimeout`; `alreadyHandledByListener` is still
`false` when the timer is armed.) -/
def pendingCallInit : CallerState :=
  { registered := true, timerArmed := true, settled := [] }

/-- The match test of `handleResponse` (lines 153-161): `event.data` truthy
and `commIndex`, `commChannel`, `commType === "response"`, `method` all
strictly equal to the outstanding call's. -/
def responseMatches (p : CallParams) (d : Option JMsg) : Bool :=
  match d with
  | none => false
  | some response =>
    strictEq response.commIndex (.num p.callIndex) &&
    strictEq response.commChannel (.str p.commChannel) &&
    strictEq response.commType (.str "response") &&
    strictEq response.method (.str p.method)

/-- The settlement performed on a matching response (lines 169-174):
`response.success` truthy resolves with `response.result` when that is
truthy and with no value otherwise; otherwise rejects with `response.result`
when truthy, else with a generic error. -/
def settleOf (response : JMsg) : Settle :=
  if truthy response.success then
    if truthy (response.result.getD .undef) then
      .resolvedWith (response.result.getD .undef)
    else .resolvedUnit
  else
    if truthy (response.result.getD .undef) then
      .rejectedWith (response.result.getD .undef)
    else .rejectedGeneric

/-- One delivery of a `message` event to the pending call (lines 152-177).
The listener only runs while registered; on a matching response it records
the settlement, clears the timer (`clearTimeout`) and removes itself
(`removeEventListener`); any other message leaves the state untouched. -/
def handleResponse (p : CallParams) (s : CallerState) (d : Option JMsg) : CallerState :=
  match d with
  | none => s
  | some response =>
    if s.registered && responseMatches p (some response) then
      { registered := false, timerArmed := false,
        settled := s.settled ++ [settleOf response] }
    else s

/-- The decay timer firing after `timeout` ms (lines 196-200): if it was not
cleared, it removes the listener and rejects with the timeout error.  A
cleared timer (`clearTimeout`) never fires. -/
def decayTimeoutFire (t : Nat) (s : CallerState) : CallerState :=
  if s.timerArmed then
    { registered := false, timerArmed := false,
      settled := s.settled ++ [.rejectedTimeout t] }
  else s

/-- `timeout = 2000`: the default applied when the caller omits the
timeout argument (line 137). -/
def timeoutOrDefault (topt : Option Nat) : Nat := topt.getD 2000

/-- The message of the timeout rejection error (line 199). -/
def timeoutMessage (t : Nat) : String :=
  "Remote call timeout. Got no response from called window after " ++ toString t ++ " ms."

/-- The request message built and posted by the caller (lines 182-188):
`args: !!argArray ? argArray : []`. -/
def buildRequest (callIndex : Int) (commChannel method : String)
    (argArray : Option (List JSVal)) : JMsg :=
  { commIndex := .num callIndex, commChannel := .str commChannel,
    commType := .str "request", method := .str method,
    args := some (argArray.getD []), success := .undef, result := none }

/-- A full single-threaded schedule of one pending call: the messages
delivered before the timer's deadline, then the timer event (which fires
exactly when it was not cleared), then the messages delivered afterwards. -/
def pendingCallRun (p : CallParams) (t : Nat)
    (before after : List (Option JMsg)) : CallerState :=
  List.foldl (handleResponse p)
    (decayTimeoutFire t (List.foldl (handleResponse p) pendingCallInit before)) after


-- ######### RECEIVER SIDE (`setupCrossWindowExecutor`, lines 229-304)

/-- Outcome of invoking a target method `methodOfCallTarget.apply(callTarget, args)`:
a plain return value, a returned promise (fulfilled / rejected / never
settling), or a synchronous throw. -/
inductive InvokeOutcome where
  | ret (v : JSVal)
  | promiseFulfilled (v : JSVal)
  | promiseRejected (e : JSVal)
  | promisePending
  | throwErr (e : JSVal)
deriving DecidableEq, Repr

/-- Semantics of the call target's function-valued properties: what calling
function `id` with a given `this` and argument list does. -/
def FnSem : Type := Nat → JSVal → List JSVal → InvokeOutcome

/-- JS property lookup `callTarget[method]`: the scopes are the object's own
properties followed by each prototype's properties along the prototype
chain; the first scope containing the key wins (an own property explicitly
set to `undefined` shadows the chain, as in JS). -/
def chainLookup : List (List (String × JSVal)) → String → JSVal
  | [], _ => .undef
  | scope :: rest, k =>
    match List.lookup k scope with
    | some v => v
    | none => chainLookup rest k

/-- `Array.isArray(request.args) ? request.args : []` (line 257). -/
def argsList : Option (List JSVal) → List JSVal
  | some xs => xs
  | none => []

/-- The executor's acceptance guard (lines 233-236): truthy data with
matching `commChannel`, `commType === "request"`, and a defined
`commIndex`. -/
def acceptsRequest (commChannel : String) (request : JMsg) : Bool :=
  strictEq request.commChannel (.str commChannel) &&
  strictEq request.commType (.str "request") &&
  !(isUndef request.commIndex)

/-- What `Promise.resolve(callResult)` settles to. -/
inductive Delivered where
  | fulfilled (v : JSVal)
  | rejected (e : JSVal)
  | pending
deriving DecidableEq, Repr

/-- Lines 240-264: method resolution plus invocation.  Returns the computed
`success` flag together with what `Promise.resolve(callResult)` settles to,
or `.error ()` when the listener body itself throws.  The test
`typeof methodOfCallTarget.apply !== "function"` reads `.apply` off the
property value: on `null` that read throws a `TypeError` (only the
`=== undefined` case was filtered out before), on primitives and plain
objects `.apply` is `undefined` (not a function), and on functions it is
`Function.prototype.apply`. -/
def execDispatch (fsem : FnSem) (tgtId : Nat)
    (chain : List (List (String × JSVal))) (request : JMsg) :
    Except Unit (Bool × Delivered) :=
  if truthy request.method then
    let mName := jsStr request.method
    match chainLookup chain mName with
    | .undef => .ok (false, .fulfilled (.str ("'" ++ mName ++ "' does not exist")))
    | .null => .error ()
    | .fn fid =>
      match fsem fid (.obj tgtId) (argsList request.args) with
      | .ret v => .ok (true, .fulfilled v)
      | .promiseFulfilled v => .ok (true, .fulfilled v)
      | .promiseRejected e => .ok (true, .rejected e)
      | .promisePending => .ok (true, .pending)
      | .throwErr e =>
        match toStringCall e with
        | .ok s => .ok (false, .fulfilled (.str s))
        | .error _ => .error ()
    | _ => .ok (false, .fulfilled (.str ("'" ++ mName ++ "' is not a function")))
  else
    .ok (false, .fulfilled (.str "method name was empty/not given"))

/-- The `result` key of a response is set only for a value that is neither
`undefined` nor `null` (lines 275-277 and 292-294). -/
def definedResult : JSVal → Option JSVal
  | .undef => none
  | .null => none
  | v => some v

/-- The response message posted back (lines 267-277 / 284-294): echoes the
request's `commIndex` and `method`, carries the executor's channel,
`commType: "response"`, the `success` flag, and `result` only when
defined. -/
def buildResponse (commChannel : String) (request : JMsg) (success : Bool)
    (v : JSVal) : JMsg :=
  { commIndex := request.commIndex, commChannel := .str commChannel,
    commType := .str "response", method := request.method,
    args := none, success := .bool success, result := definedResult v }

/-- Observable effect of delivering one `message` event to the executor's
listener. -/
inductive ExecEffect where
  /-- Guard failed: the message is silently ignored. -/
  | ignored
  /-- A synchronous exception escaped the listener; nothing is posted. -/
  | raised
  /-- Accepted, but the result promise never settles; nothing is posted. -/
  | noResponse
  /-- Exactly one `event.source.postMessage(r, "*")`. -/
  | respond (source : Option Nat) (r : JMsg)
deriving DecidableEq, Repr

/-- The listener registered by `setupCrossWindowExecutor(callTarget, commChannel)`
(lines 230-299), for a call target with identity `tgtId`, property scopes
`chain`, and method semantics `fsem`.  The `.then` branch posts with the
computed `success` flag; the `.catch` branch (a rejected result promise)
posts with `success: false` and the raw rejection reason as `result`. -/
def executorListener (fsem : FnSem) (tgtId : Nat)
    (chain : List (List (String × JSVal))) (commChannel : String)
    (ev : JEvent) : ExecEffect :=
  match ev.data with
  | none => .ignored
  | some request =>
    if acceptsRequest commChannel request then
      match execDispatch fsem tgtId chain request with
      | .error _ => .raised
      | .ok (success, .fulfilled v) =>
        .respond ev.source (buildResponse commChannel request success v)
      | .ok (_, .rejected e) =>
        .respond ev.source (buildResponse commChannel request false e)
      | .ok (_, .pending) => .noResponse
    else .ignored


-- ######### RELAY (`setupCrossWindowMessageRelay`, lines 309-347)

/-- The relay origin table `commIndexSources`: call id (as string) to the
recorded `event.source` (`none` records a null source). -/
abbrev OriginTable : Type := List (String × Option Nat)

/-- The relay's acceptance guard (lines 316-318): truthy data, matching
`commChannel`, defined `commIndex`. -/
def acceptsRelayMessage (commChannel : String) (m : JMsg) : Bool :=
  strictEq m.commChannel (.str commChannel) && !(isUndef m.commIndex)

/-- Observable effect of delivering one `message` event to a relay
listener. -/
inductive RelayEffect where
  /-- Guard failed, or `commType` neither `"request"` nor `"response"`. -/
  | ignored
  /-- `relayTarget.postMessage(message, "*")`, then the source recorded. -/
  | forwardRequest (relayTarget : Nat) (m : JMsg)
  /-- The request was forwarded, but `message.commIndex.toString()` then
  threw (a `null` call id), so nothing was recorded. -/
  | forwardRequestThenRaise (relayTarget : Nat) (m : JMsg)
  /-- `source.postMessage(message, "*")` back to the recorded origin. -/
  | forwardResponse (origin : Nat) (m : JMsg)
  /-- Response with no (truthy) recorded origin: logged and dropped. -/
  | droppedOrphan
  /-- `message.commIndex.toString()` threw while looking up a response. -/
  | raisedInLookup
deriving DecidableEq, Repr

/-- The listener registered by `setupCrossWindowMessageRelay` (lines
313-342), acting on the origin table it currently sees.  Requests are
forwarded unchanged to `relayTarget` and the source recorded under the call
id's string (assignment overwrites: the new binding shadows any older one);
responses are forwarded to the recorded origin when `if (source)` finds a
truthy entry and are dropped otherwise. -/
def relayMessageListener (relayTarget : Nat) (commChannel : String)
    (tbl : OriginTable) (ev : JEvent) : OriginTable × RelayEffect :=
  match ev.data with
  | none => (tbl, .ignored)
  | some message =>
    if acceptsRelayMessage commChannel message then
      if strictEq message.commType (.str "request") then
        match toStringCall message.commIndex with
        | .ok k => ((k, ev.source) :: tbl, .forwardRequest relayTarget message)
        | .error _ => (tbl, .forwardRequestThenRaise relayTarget message)
      else if strictEq message.commType (.str "response") then
        match toStringCall message.commIndex with
        | .ok k =>
          match List.lookup k tbl with
          | some (some origin) => (tbl, .forwardResponse origin message)
          | some none => (tbl, .droppedOrphan)
          | none => (tbl, .droppedOrphan)
        | .error _ => (tbl, .raisedInLookup)
      else (tbl, .ignored)
    else (tbl, .ignored)

/-- A window hosting relay listeners.  `setupCrossWindowMessageRelay` is a
plain sloppy-mode function and its listener is invoked by event dispatch
with `this === window`, so `this.commIndexSources` names a single
window-global table shared by every relay registered on that window. -/
structure RelayWindow where
  commIndexSources : OriginTable
  relays : List (Nat × String)
deriving DecidableEq, Repr

/-- A window with no relays and no table. -/
def emptyRelayWindow : RelayWindow := { commIndexSources := [], relays := [] }

/-- `setupCrossWindowMessageRelay(relayTarget, commChannel)` (lines
309-347): executes `this.commIndexSources = {}` — resetting the shared
window-global table — and registers one more listener. -/
def setupCrossWindowMessageRelay (w : RelayWindow) (relayTarget : Nat)
    (commChannel : String) : RelayWindow :=
  { commIndexSources := [],
    relays := w.relays ++ [(relayTarget, commChannel)] }

/-- Delivery of one `message` event to the window: every registered relay
listener runs in registration order, each reading and updating the shared
table; the effects are collected in order. -/
def windowDeliver (w : RelayWindow) (ev : JEvent) :
    RelayWindow × List RelayEffect :=
  let folded := w.relays.foldl
    (fun acc p =>
      let out := relayMessageListener p.1 p.2 acc.1 ev
      (out.1, acc.2 ++ [out.2]))
    (w.commIndexSources, ([] : List RelayEffect))
  ({ commIndexSources := folded.1, relays := w.relays }, folded.2)


-- ######### GENERAL LEMMAS

/-- On the modelled values, strict equality `===` coincides with equality
(no `NaN`/`-0` arise with integer numbers). -/
theorem strictEq_iff (a b : JSVal) : strictEq a b = true ↔ a = b := by
  cases a <;> cases b <;> simp [strictEq]

/-- A message failing the caller's match test leaves the pending call's
state untouched. -/
theorem handleResponse_noop_nonmatching (p : CallParams) (s : CallerState)
    (d : Option JMsg) (h : responseMatches p d = false) :
    handleResponse p s d = s := by
  cases d with
  | none => rfl
  | some r => simp [handleResponse, h]

/-- Once the listener is removed, delivering further messages has no
effect. -/
theorem handleResponse_noop_unregistered (p : CallParams) (s : CallerState)
    (d : Option JMsg) (h : s.registered = false) : handleResponse p s d = s := by
  cases d with
  | none => rfl
  | some r => simp [handleResponse, h]

/-- Folding message deliveries over a deregistered state is the
identity. -/
theorem foldl_handleResponse_noop (p : CallParams) (msgs : List (Option JMsg))
    (s : CallerState) (h : s.registered = false) :
    List.foldl (handleResponse p) s msgs = s := by
  induction msgs with
  | nil => rfl
  | cons d rest ih =>
    rw [List.foldl_cons, handleResponse_noop_unregistered p s d h]
    exact ih

/-- Folding only non-matching message deliveries is the identity. -/
theorem foldl_handleResponse_nonmatching (p : CallParams)
    (msgs : List (Option JMsg)) (s : CallerState)
    (h : ∀ d ∈ msgs, responseMatches p d = false) :
    List.foldl (handleResponse p) s msgs = s := by
  induction msgs generalizing s with
  | nil => rfl
  | cons d rest ih =>
    rw [List.foldl_cons, handleResponse_noop_nonmatching p s d (h d (by simp))]
    exact ih s (fun d2 hd2 => h d2 (by simp [hd2]))


-- ######### CLAIM THEOREMS: CALLER SETTLEMENT

/-- C8: for every pending call and every incoming message that is not a
well-formed response matching the call's `commIndex`, `commChannel`,
`commType "response"` and `method` — including responses on a different
channel and responses with an unknown call id — the caller's state is
unchanged: no settlement, the timer is untouched, the listener stays
registered. -/
theorem caller_ignores_nonmatching_messages (p : CallParams) (s : CallerState)
    (d : Option JMsg) (h : responseMatches p d = false) :
    handleResponse p s d = s :=
  handleResponse_noop_nonmatching p s d h

/-- C8 witness: a response on a different channel is ignored by the pending
call. -/
theorem caller_ignores_nonmatching_messages_witness :
    handleResponse { callIndex := 0, commChannel := "a", method := "m" }
      pendingCallInit
      (some { commIndex := .num 0, commChannel := .str "b",
              commType := .str "response", method := .str "m",
              success := .bool true, result := some (.str "x") })
      = pendingCallInit :=
  caller_ignores_nonmatching_messages
    { callIndex := 0, commChannel := "a", method := "m" } pendingCallInit
    (some { commIndex := .num 0, commChannel := .str "b",
            commType := .str "response", method := .str "m",
            success := .bool true, result := some (.str "x") }) rfl

/-- The executor of claim C1's counterexample: a call target whose method
`getZero` returns the number `0`. -/
def zeroChain : List (List (String × JSVal)) := [[("getZero", JSVal.fn 0)]]

/-- Function semantics for `zeroChain`: `getZero` returns `0`. -/
def zeroFnSem : FnSem := fun _ _ _ => .ret (.num 0)

/-- The request of claim C1's counterexample. -/
def zeroRequest : JMsg := buildRequest 0 "cw" "getZero" (some [])

/-- The response the executor produces for `zeroRequest`: `success: true`
with `result: 0` present. -/
def zeroResponse : JMsg := buildResponse "cw" zeroRequest true (.num 0)

/-- The pending call matching `zeroRequest`. -/
def zeroParams : CallParams := { callIndex := 0, commChannel := "cw", method := "getZero" }

/-- C1 counterexample: the executor's method returns the defined-but-falsy
value `0`; the response carries `success: true` and `result: 0`, yet the
caller resolves with **no value** (`resolve()`), not with `0`: the check
`if (response.result)` tests truthiness, not presence.  So the claim that
the promise resolves with exactly the produced result "including when that
value is falsy but defined" is false. -/
theorem caller_falsy_result_counterexample :
    executorListener zeroFnSem 0 zeroChain "cw"
        { data := some zeroRequest, source := some 1 }
      = .respond (some 1) zeroResponse
  ∧ zeroResponse.success = .bool true
  ∧ zeroResponse.result = some (.num 0)
  ∧ handleResponse zeroParams pendingCallInit (some zeroResponse)
      = { registered := false, timerArmed := false, settled := [.resolvedUnit] }
  ∧ Settle.resolvedUnit ≠ Settle.resolvedWith (.num 0) := by
  refine ⟨rfl, rfl, rfl, rfl, ?_⟩
  decide

/-- C1 amended: on a matching response with truthy `success`, the caller's
promise resolves with exactly the `result` value when that value is truthy,
and resolves with no value when `result` is absent **or falsy** (`0`,
`false`, `""`, `null`). -/
theorem caller_resolves_truthy_result_only (p : CallParams) (s : CallerState)
    (r : JMsg) (hreg : s.registered = true)
    (hm : responseMatches p (some r) = true)
    (hs : truthy r.success = true) :
    handleResponse p s (some r)
      = { registered := false, timerArmed := false,
          settled := s.settled ++
            [if truthy (r.result.getD .undef) then
               Settle.resolvedWith (r.result.getD .undef)
             else Settle.resolvedUnit] } := by
  simp [handleResponse, hreg, hm, settleOf, hs]

/-- C1 amended witness: a truthy result (`"hi"`) is delivered verbatim. -/
theorem caller_resolves_truthy_result_only_witness :
    handleResponse { callIndex := 3, commChannel := "cw1", method := "g" }
      pendingCallInit
      (some { commIndex := .num 3, commChannel := .str "cw1",
              commType := .str "response", method := .str "g",
              success := .bool true, result := some (.str "hi") })
      = { registered := false, timerArmed := false,
          settled := [Settle.resolvedWith (.str "hi")] } :=
  caller_resolves_truthy_result_only
    { callIndex := 3, commChannel := "cw1", method := "g" } pendingCallInit
    { commIndex := .num 3, commChannel := .str "cw1",
      commType := .str "response", method := .str "g",
      success := .bool true, result := some (.str "hi") } rfl rfl rfl


-- ######### CLAIM THEOREMS: EXECUTOR DISPATCH

/-- Claim C3's failing input: a call target whose property `m` is `null`. -/
def nullPropChain : List (List (String × JSVal)) := [[("m", JSVal.null)]]

/-- The request naming the `null`-valued property `m`. -/
def nullPropRequest : JMsg := buildRequest 0 "cn" "m" (some [])

/-- C3, at the failing input: the executor accepts the request (matching
channel, `commType "request"`, defined `commIndex`) but the listener throws
a `TypeError` — `methodOfCallTarget.apply` reads a property of `null`,
which only the `=== undefined` case was guarded against — so **no** response
is posted, contradicting "never raises and always posts exactly one
response ... for every possible value of the named property, including
null". -/
theorem executor_null_property_raises :
    acceptsRequest "cn" nullPropRequest = true
  ∧ executorListener (fun _ _ _ => .ret .undef) 0 nullPropChain "cn"
        { data := some nullPropRequest, source := some 1 }
      = .raised := ⟨rfl, rfl⟩

/-- Claim C5's call target: `n` is a number (non-callable), `z` is `null`. -/
def resolutionTarget : List (List (String × JSVal)) :=
  [[("n", JSVal.num 5), ("z", JSVal.null)]]

/-- C5, evaluated: the three resolution-failure messages are exactly as
claimed for an empty method name, an undefined property and a non-callable
number — but for the non-callable value `null` the handler throws instead
of answering `"'z' is not a function"`, so the "any non-callable value,
e.g. ... null" part fails on the code. -/
theorem executor_method_resolution_messages :
    executorListener (fun _ _ _ => .ret .undef) 0 resolutionTarget "c5"
        { data := some (buildRequest 0 "c5" "" (some [])), source := some 1 }
      = .respond (some 1) (buildResponse "c5" (buildRequest 0 "c5" "" (some []))
          false (.str "method name was empty/not given"))
  ∧ executorListener (fun _ _ _ => .ret .undef) 0 resolutionTarget "c5"
        { data := some (buildRequest 0 "c5" "nope" (some [])), source := some 1 }
      = .respond (some 1) (buildResponse "c5" (buildRequest 0 "c5" "nope" (some []))
          false (.str "'nope' does not exist"))
  ∧ executorListener (fun _ _ _ => .ret .undef) 0 resolutionTarget "c5"
        { data := some (buildRequest 0 "c5" "n" (some [])), source := some 1 }
      = .respond (some 1) (buildResponse "c5" (buildRequest 0 "c5" "n" (some []))
          false (.str "'n' is not a function"))
  ∧ executorListener (fun _ _ _ => .ret .undef) 0 resolutionTarget "c5"
        { data := some (buildRequest 0 "c5" "z" (some [])), source := some 1 }
      = .raised := ⟨rfl, rfl, rfl, rfl⟩

/-- Claim C4's call target: a single method `boom` (function id 0). -/
def failChain : List (List (String × JSVal)) := [[("boom", JSVal.fn 0)]]

/-- The request invoking `boom`. -/
def failRequest : JMsg := buildRequest 1 "cf" "boom" (some [])

/-- C4 counterexample: when `boom` **throws** `3` synchronously, the caught
error is stringified (`error.toString()`) and the response carries
`result: "3"`; but when `boom` returns a promise **rejecting** with `3`,
the `.catch` branch stores the raw rejection reason (`responseMessage.result
= error`) and the response carries `result: 3`.  The two failure modes do
not produce the same shape, refuting "the caught error's string
representation (not the raw error value) becomes the result" for the
asynchronous mode. -/
theorem executor_async_rejection_raw_counterexample :
    executorListener (fun _ _ _ => .throwErr (.num 3)) 0 failChain "cf"
        { data := some failRequest, source := some 2 }
      = .respond (some 2) (buildResponse "cf" failRequest false (.str "3"))
  ∧ executorListener (fun _ _ _ => .promiseRejected (.num 3)) 0 failChain "cf"
        { data := some failRequest, source := some 2 }
      = .respond (some 2) (buildResponse "cf" failRequest false (.num 3))
  ∧ (buildResponse "cf" failRequest false (.num 3)).result
      ≠ (buildResponse "cf" failRequest false (.str "3")).result := by
  refine ⟨rfl, rfl, ?_⟩
  decide

/-- C4 amended: both invocation-failure modes produce a `success: false`
response, but with different `result` payloads: a synchronous throw is
caught and delivered as the error's string representation, while an
asynchronous rejection is delivered as the raw rejection reason (omitted
when that reason is `undefined`/`null`). -/
theorem executor_failure_result_shapes (fsem : FnSem) (tgtId : Nat)
    (chain : List (List (String × JSVal))) (commChannel : String)
    (src : Option Nat) (request : JMsg) (fid : Nat) (e : JSVal) (s : String)
    (hacc : acceptsRequest commChannel request = true)
    (hm : truthy request.method = true)
    (hfound : chainLookup chain (jsStr request.method) = .fn fid) :
    (fsem fid (.obj tgtId) (argsList request.args) = .throwErr e →
      toStringCall e = .ok s →
      executorListener fsem tgtId chain commChannel
          { data := some request, source := src }
        = .respond src (buildResponse commChannel request false (.str s)))
  ∧ (fsem fid (.obj tgtId) (argsList request.args) = .promiseRejected e →
      executorListener fsem tgtId chain commChannel
          { data := some request, source := src }
        = .respond src (buildResponse commChannel request false e)) := by
  constructor
  · intro h1 h2
    simp [executorListener, hacc, execDispatch, hm, hfound, h1, h2]
  · intro h1
    simp [executorListener, hacc, execDispatch, hm, hfound, h1]

/-- C4 amended witness: the synchronous-throw shape at a concrete input. -/
theorem executor_failure_result_shapes_witness :
    executorListener (fun _ _ _ => .throwErr (.num 3)) 5 failChain "cf"
        { data := some failRequest, source := some 2 }
      = .respond (some 2) (buildResponse "cf" failRequest false (.str "3")) :=
  (executor_failure_result_shapes (fun _ _ _ => .throwErr (.num 3)) 5 failChain
      "cf" (some 2) failRequest 0 (.num 3) "3" rfl rfl rfl).1 rfl rfl


-- ######### CLAIM THEOREMS: PROTOTYPE-CHAIN DISPATCH (C10)

/-- A key absent from the first scope is resolved further down the
prototype chain. -/
theorem chainLookup_not_own (own : List (String × JSVal))
    (rest : List (List (String × JSVal))) (k : String)
    (h : List.lookup k own = none) :
    chainLookup (own :: rest) k = chainLookup rest k := by
  simp [chainLookup, h]

/-- C10: `callTarget[request.method]` is ordinary property access and
traverses the prototype chain.  For any target whose own scope lacks the
method but whose chain supplies it as a function, the executor treats it as
existing and invocable, invokes it bound to the target object (`this` is
the target: the response is dictated by `fsem fid (.obj tgtId) ...` for
every `fsem`), and answers with a success response. -/
theorem executor_prototype_chain_lookup (fsem : FnSem) (tgtId : Nat)
    (own : List (String × JSVal)) (rest : List (List (String × JSVal)))
    (commChannel : String) (src : Option Nat) (request : JMsg) (fid : Nat)
    (v : JSVal)
    (hacc : acceptsRequest commChannel request = true)
    (hm : truthy request.method = true)
    (hown : List.lookup (jsStr request.method) own = none)
    (hproto : chainLookup rest (jsStr request.method) = .fn fid)
    (hcall : fsem fid (.obj tgtId) (argsList request.args) = .ret v) :
    executorListener fsem tgtId (own :: rest) commChannel
        { data := some request, source := src }
      = .respond src (buildResponse commChannel request true v) := by
  have hchain : chainLookup (own :: rest) (jsStr request.method) = .fn fid := by
    rw [chainLookup_not_own own rest _ hown, hproto]
  simp [executorListener, hacc, execDispatch, hm, hchain, hcall]

/-- C10 witness: `toString` is not an own property of the target but is
inherited from the prototype scope; the call succeeds. -/
theorem executor_prototype_chain_lookup_witness :
    executorListener (fun _ _ _ => .ret (.str "[object Object]")) 0
        ([("x", JSVal.num 1)] :: [[("toString", JSVal.fn 7)]]) "cp"
        { data := some (buildRequest 2 "cp" "toString" (some [])), source := some 3 }
      = .respond (some 3)
          (buildResponse "cp" (buildRequest 2 "cp" "toString" (some []))
            true (.str "[object Object]")) :=
  executor_prototype_chain_lookup (fun _ _ _ => .ret (.str "[object Object]")) 0
    [("x", JSVal.num 1)] [[("toString", JSVal.fn 7)]] "cp" (some 3)
    (buildRequest 2 "cp" "toString" (some [])) 7 (.str "[object Object]")
    rfl rfl rfl rfl rfl


-- ######### CLAIM THEOREMS: EXACTLY-ONE SETTLEMENT (C2)

/-- Reachable states of a pending call: either untouched (no settlement,
listener registered, timer armed) or settled exactly once with the
listener removed and the timer cleared. -/
def CallerInv (s : CallerState) : Prop :=
  (s.registered = true ∧ s.timerArmed = true ∧ s.settled = [])
  ∨ (s.registered = false ∧ s.timerArmed = false ∧ s.settled.length = 1)

/-- One message delivery preserves the pending-call invariant. -/
theorem handleResponse_inv (p : CallParams) (s : CallerState) (d : Option JMsg)
    (h : CallerInv s) : CallerInv (handleResponse p s d) := by
  cases d with
  | none => exact h
  | some r =>
    simp only [handleResponse]
    split
    · rename_i hc
      have hreg : s.registered = true := by
        simp only [Bool.and_eq_true] at hc
        exact hc.1
      rcases h with ⟨_, _, h3⟩ | ⟨h1, _, _⟩
      · right
        refine ⟨rfl, rfl, ?_⟩
        simp [h3]
      · rw [h1] at hreg
        cases hreg
    · exact h

/-- Any sequence of message deliveries preserves the invariant. -/
theorem foldl_handleResponse_inv (p : CallParams) (msgs : List (Option JMsg))
    (s : CallerState) (h : CallerInv s) :
    CallerInv (List.foldl (handleResponse p) s msgs) := by
  induction msgs generalizing s with
  | nil => exact h
  | cons d rest ih => exact ih (handleResponse p s d) (handleResponse_inv p s d h)

/-- The timer event drives any invariant state into the settled-once
state: an armed timer fires and rejects, a cleared timer does nothing to a
state already settled once. -/
theorem decayTimeoutFire_done (t : Nat) (s : CallerState) (h : CallerInv s) :
    (decayTimeoutFire t s).registered = false
  ∧ (decayTimeoutFire t s).timerArmed = false
  ∧ (decayTimeoutFire t s).settled.length = 1 := by
  rcases h with ⟨_, h2, h3⟩ | ⟨h1, h2, h3⟩
  · simp [decayTimeoutFire, h2, h3]
  · simp [decayTimeoutFire, h1, h2, h3]

/-- C2: over any single-threaded schedule — messages delivered, then the
timer's deadline (`setTimeout` fires exactly when the timer was not
cleared), then further messages — a pending call settles **exactly once**
(never both outcomes, never neither), ends with the listener removed and
the timer cleared, and delivering any further message after settling has no
effect (the listener is never invoked again). -/
theorem pendingCall_exactly_one_settlement (p : CallParams) (t : Nat)
    (before after : List (Option JMsg)) :
    (pendingCallRun p t before after).settled.length = 1
  ∧ (pendingCallRun p t before after).registered = false
  ∧ (pendingCallRun p t before after).timerArmed = false
  ∧ ∀ d, handleResponse p (pendingCallRun p t before after) d
      = pendingCallRun p t before after := by
  have hinv : CallerInv (List.foldl (handleResponse p) pendingCallInit before) :=
    foldl_handleResponse_inv p before pendingCallInit (Or.inl ⟨rfl, rfl, rfl⟩)
  obtain ⟨d1, d2, d3⟩ :=
    decayTimeoutFire_done t (List.foldl (handleResponse p) pendingCallInit before) hinv
  have hrun : pendingCallRun p t before after
      = decayTimeoutFire t (List.foldl (handleResponse p) pendingCallInit before) := by
    unfold pendingCallRun
    exact foldl_handleResponse_noop p after _ d1
  refine ⟨?_, ?_, ?_, ?_⟩
  · rw [hrun]; exact d3
  · rw [hrun]; exact d1
  · rw [hrun]; exact d2
  · intro d
    rw [hrun]
    exact handleResponse_noop_unregistered p _ d d1


-- ######### CLAIM THEOREMS: TIMEOUT (C7)

/-- C7: with timeout parameter `topt` (defaulting to 2000 ms when omitted),
if no message delivered before the deadline matches the call, the timer
event deregisters the listener and rejects exactly once with the timeout
error for the elapsed value `t`; no timeout rejection happens from message
processing before the timer fires; and the rejection error's message names
the elapsed timeout value. -/
theorem callCrossWindowExecutor_timeout (topt : Option Nat) (p : CallParams)
    (before : List (Option JMsg))
    (h : ∀ d ∈ before, responseMatches p d = false) :
    decayTimeoutFire (timeoutOrDefault topt)
        (List.foldl (handleResponse p) pendingCallInit before)
      = { registered := false, timerArmed := false,
          settled := [.rejectedTimeout (timeoutOrDefault topt)] }
  ∧ (∀ t2, Settle.rejectedTimeout t2 ∉
        (List.foldl (handleResponse p) pendingCallInit before).settled)
  ∧ timeoutMessage (timeoutOrDefault topt)
      = "Remote call timeout. Got no response from called window after "
          ++ toString (timeoutOrDefault topt) ++ " ms." := by
  have hfold : List.foldl (handleResponse p) pendingCallInit before = pendingCallInit :=
    foldl_handleResponse_nonmatching p before pendingCallInit h
  refine ⟨?_, ?_, rfl⟩
  · rw [hfold]; rfl
  · rw [hfold]
    intro t2 ht2
    simp [pendingCallInit] at ht2

/-- C7 witness: an unanswered call (one falsy-data event before the
deadline) rejects with the 2000 ms default timeout error. -/
theorem callCrossWindowExecutor_timeout_witness :
    decayTimeoutFire (timeoutOrDefault none)
        (List.foldl (handleResponse { callIndex := 7, commChannel := "ct", method := "m" })
          pendingCallInit [none])
      = { registered := false, timerArmed := false,
          settled := [.rejectedTimeout (timeoutOrDefault none)] }
  ∧ (∀ t2, Settle.rejectedTimeout t2 ∉
        (List.foldl (handleResponse { callIndex := 7, commChannel := "ct", method := "m" })
          pendingCallInit [none]).settled)
  ∧ timeoutMessage (timeoutOrDefault none)
      = "Remote call timeout. Got no response from called window after "
          ++ toString (timeoutOrDefault none) ++ " ms." :=
  callCrossWindowExecutor_timeout none
    { callIndex := 7, commChannel := "ct", method := "m" } [none]
    (by intro d hd; rw [List.mem_singleton.mp hd]; rfl)


-- ######### CLAIM THEOREMS: RELAY ROUTING (C6)

/-- C6: for every relay listener — (i) an accepted request is forwarded
unchanged to `relayTarget` and its call id (as string) is bound to the
event's source; (ii) the new binding overwrites any prior entry for that id
while leaving other ids' lookups unchanged; (iii) an accepted response with
a recorded origin is forwarded to exactly that origin; (iv) an accepted
response with no recorded origin is dropped; (v) two interleaved in-flight
calls with distinct ids are each routed back to their own origin, with the
responses arriving in either order. -/
theorem relayMessageListener_routes (relayTarget : Nat) (commChannel : String) :
    (∀ (tbl : OriginTable) (m : JMsg) (src : Option Nat) (k : String),
      acceptsRelayMessage commChannel m = true →
      strictEq m.commType (.str "request") = true →
      toStringCall m.commIndex = .ok k →
      relayMessageListener relayTarget commChannel tbl { data := some m, source := src }
        = ((k, src) :: tbl, .forwardRequest relayTarget m))
  ∧ (∀ (tbl : OriginTable) (k k2 : String) (src : Option Nat), k2 ≠ k →
      List.lookup k ((k, src) :: tbl) = some src
      ∧ List.lookup k2 ((k, src) :: tbl) = List.lookup k2 tbl)
  ∧ (∀ (tbl : OriginTable) (m : JMsg) (src : Option Nat) (k : String) (origin : Nat),
      acceptsRelayMessage commChannel m = true →
      strictEq m.commType (.str "response") = true →
      toStringCall m.commIndex = .ok k →
      List.lookup k tbl = some (some origin) →
      relayMessageListener relayTarget commChannel tbl { data := some m, source := src }
        = (tbl, .forwardResponse origin m))
  ∧ (∀ (tbl : OriginTable) (m : JMsg) (src : Option Nat) (k : String),
      acceptsRelayMessage commChannel m = true →
      strictEq m.commType (.str "response") = true →
      toStringCall m.commIndex = .ok k →
      List.lookup k tbl = none →
      relayMessageListener relayTarget commChannel tbl { data := some m, source := src }
        = (tbl, .droppedOrphan))
  ∧ (∀ (tbl : OriginTable) (m1 m2 r1 r2 : JMsg) (o1 o2 : Nat) (s1 s2 : Option Nat)
        (k1 k2 : String),
      acceptsRelayMessage commChannel m1 = true →
      strictEq m1.commType (.str "request") = true →
      toStringCall m1.commIndex = .ok k1 →
      acceptsRelayMessage commChannel m2 = true →
      strictEq m2.commType (.str "request") = true →
      toStringCall m2.commIndex = .ok k2 →
      acceptsRelayMessage commChannel r1 = true →
      strictEq r1.commType (.str "response") = true →
      toStringCall r1.commIndex = .ok k1 →
      acceptsRelayMessage commChannel r2 = true →
      strictEq r2.commType (.str "response") = true →
      toStringCall r2.commIndex = .ok k2 →
      k1 ≠ k2 →
      (relayMessageListener relayTarget commChannel
          (relayMessageListener relayTarget commChannel
            (relayMessageListener relayTarget commChannel tbl
              { data := some m1, source := some o1 }).1
            { data := some m2, source := some o2 }).1
          { data := some r2, source := s2 }).2 = .forwardResponse o2 r2
      ∧ (relayMessageListener relayTarget commChannel
          (relayMessageListener relayTarget commChannel
            (relayMessageListener relayTarget commChannel tbl
              { data := some m1, source := some o1 }).1
            { data := some m2, source := some o2 }).1
          { data := some r1, source := s1 }).2 = .forwardResponse o1 r1) := by
  have hreq : ∀ (tbl : OriginTable) (m : JMsg) (src : Option Nat) (k : String),
      acceptsRelayMessage commChannel m = true →
      strictEq m.commType (.str "request") = true →
      toStringCall m.commIndex = .ok k →
      relayMessageListener relayTarget commChannel tbl { data := some m, source := src }
        = ((k, src) :: tbl, .forwardRequest relayTarget m) := by
    intro tbl m src k ha hq hk
    simp [relayMessageListener, ha, hq, hk]
  have hresp : ∀ (tbl : OriginTable) (m : JMsg) (src : Option Nat) (k : String) (origin : Nat),
      acceptsRelayMessage commChannel m = true →
      strictEq m.commType (.str "response") = true →
      toStringCall m.commIndex = .ok k →
      List.lookup k tbl = some (some origin) →
      relayMessageListener relayTarget commChannel tbl { data := some m, source := src }
        = (tbl, .forwardResponse origin m) := by
    intro tbl m src k origin ha hp hk hl
    have hteq : m.commType = .str "response" := (strictEq_iff _ _).mp hp
    have hnreq : strictEq m.commType (.str "request") = false := by rw [hteq]; rfl
    simp [relayMessageListener, ha, hnreq, hp, hk, hl]
  refine ⟨hreq, ?_, hresp, ?_, ?_⟩
  · intro tbl k k2 src hne
    have hbeq : (k2 == k) = false := beq_eq_false_iff_ne.mpr hne
    constructor
    · simp [List.lookup]
    · simp [List.lookup, hbeq]
  · intro tbl m src k ha hp hk hl
    have hteq : m.commType = .str "response" := (strictEq_iff _ _).mp hp
    have hnreq : strictEq m.commType (.str "request") = false := by rw [hteq]; rfl
    simp [relayMessageListener, ha, hnreq, hp, hk, hl]
  · intro tbl m1 m2 r1 r2 o1 o2 s1 s2 k1 k2 ha1 hq1 hk1 ha2 hq2 hk2 hb1 hp1 hz1 hb2 hp2 hz2 hne
    rw [hreq tbl m1 (some o1) k1 ha1 hq1 hk1]
    rw [hreq ((k1, some o1) :: tbl) m2 (some o2) k2 ha2 hq2 hk2]
    have hl2 : List.lookup k2 ((k2, some o2) :: (k1, some o1) :: tbl) = some (some o2) := by
      simp [List.lookup]
    have hbne : (k1 == k2) = false := beq_eq_false_iff_ne.mpr hne
    have hl1 : List.lookup k1 ((k2, some o2) :: (k1, some o1) :: tbl) = some (some o1) := by
      simp [List.lookup, hbne]
    constructor
    · rw [hresp ((k2, some o2) :: (k1, some o1) :: tbl) r2 s2 k2 o2 hb2 hp2 hz2 hl2]
    · rw [hresp ((k2, some o2) :: (k1, some o1) :: tbl) r1 s1 k1 o1 hb1 hp1 hz1 hl1]

/-- C6 witness: a request is forwarded and recorded; the matching response
is routed back to the recorded origin. -/
theorem relayMessageListener_routes_witness :
    relayMessageListener 9 "rc" []
        { data := some (buildRequest 0 "rc" "f" (some [])), source := some 4 }
      = ([("0", some 4)], .forwardRequest 9 (buildRequest 0 "rc" "f" (some [])))
  ∧ relayMessageListener 9 "rc" [("0", some 4)]
        { data := some (buildResponse "rc" (buildRequest 0 "rc" "f" (some [])) true (.str "ok")),
          source := some 8 }
      = ([("0", some 4)],
         .forwardResponse 4 (buildResponse "rc" (buildRequest 0 "rc" "f" (some [])) true (.str "ok"))) :=
  ⟨(relayMessageListener_routes 9 "rc").1 [] (buildRequest 0 "rc" "f" (some []))
      (some 4) "0" rfl rfl rfl,
   (relayMessageListener_routes 9 "rc").2.2.1 [("0", some 4)]
      (buildResponse "rc" (buildRequest 0 "rc" "f" (some [])) true (.str "ok"))
      (some 8) "0" 4 rfl rfl rfl rfl⟩


-- ######### CLAIM THEOREMS: RELAY TABLE SHARING (C9)

/-- First relay of the C9 counterexample, on channel `c9`. -/
def window9a : RelayWindow := setupCrossWindowMessageRelay emptyRelayWindow 1 "c9"

/-- The request routed through the first relay (call id 0, origin 5). -/
def relayReq9 : JMsg := buildRequest 0 "c9" "f" (some [])

/-- The matching in-flight response. -/
def relayResp9 : JMsg := buildResponse "c9" relayReq9 true (.str "ok")

/-- The window after the first relay forwarded `relayReq9`. -/
def window9b : RelayWindow :=
  (windowDeliver window9a { data := some relayReq9, source := some 5 }).1

/-- The window after a second relay is set up. -/
def window9c : RelayWindow := setupCrossWindowMessageRelay window9b 2 "c9"

/-- C9 counterexample: the origin table is **not** per relay instance.
`setupCrossWindowMessageRelay` executes `this.commIndexSources = {}` in a
sloppy-mode function, and the listener reads `this.commIndexSources` with
`this === window`, so all relays on a window share one table and every new
setup resets it: the entry `("0" → 5)` recorded by the first relay is
discarded when the second relay is created, and the in-flight call's
response is then dropped as an orphan by both listeners instead of being
routed back to origin 5. -/
theorem relay_second_setup_drops_inflight_counterexample :
    window9b.commIndexSources = [("0", some 5)]
  ∧ window9c.commIndexSources = []
  ∧ (windowDeliver window9c { data := some relayResp9, source := some 6 }).2
      = [.droppedOrphan, .droppedOrphan]
  ∧ RelayEffect.droppedOrphan ≠ RelayEffect.forwardResponse 5 relayResp9 := by
  refine ⟨rfl, rfl, rfl, ?_⟩
  decide

/-- C9 amended: the relay origin table is a single window-global table
shared by every relay in the context; each call to
`setupCrossWindowMessageRelay` registers one more listener but resets the
shared table to empty, discarding all entries recorded by previously
created relays — any accepted response looked up through the fresh table is
dropped as an orphan. -/
theorem relay_origin_table_window_global (w : RelayWindow) (relayTarget : Nat)
    (commChannel : String) :
    (setupCrossWindowMessageRelay w relayTarget commChannel).commIndexSources = []
  ∧ (setupCrossWindowMessageRelay w relayTarget commChannel).relays
      = w.relays ++ [(relayTarget, commChannel)]
  ∧ (∀ (rt2 : Nat) (ch2 : String) (m : JMsg) (src : Option Nat) (k : String),
      acceptsRelayMessage ch2 m = true →
      strictEq m.commType (.str "response") = true →
      toStringCall m.commIndex = .ok k →
      relayMessageListener rt2 ch2
          (setupCrossWindowMessageRelay w relayTarget commChannel).commIndexSources
          { data := some m, source := src }
        = ([], .droppedOrphan)) := by
  refine ⟨rfl, rfl, ?_⟩
  intro rt2 ch2 m src k hacc hp hk
  have hteq : m.commType = .str "response" := (strictEq_iff _ _).mp hp
  have hnreq : strictEq m.commType (.str "request") = false := by rw [hteq]; rfl
  simp [setupCrossWindowMessageRelay, relayMessageListener, hacc, hnreq, hp, hk, List.lookup]

/-- C9 amended witness: after a second setup on a window holding a recorded
entry, a matching response is dropped. -/
theorem relay_origin_table_window_global_witness :
    relayMessageListener 1 "c9w"
        (setupCrossWindowMessageRelay
          { commIndexSources := [("0", some 5)], relays := [(1, "c9w")] } 2 "c9w").commIndexSources
        { data := some (buildResponse "c9w" (buildRequest 0 "c9w" "f" (some [])) true (.str "ok")),
          source := some 6 }
      = ([], .droppedOrphan) :=
  (relay_origin_table_window_global
      { commIndexSources := [("0", some 5)], relays := [(1, "c9w")] } 2 "c9w").2.2
    1 "c9w" (buildResponse "c9w" (buildRequest 0 "c9w" "f" (some [])) true (.str "ok"))
    (some 6) "0" rfl rfl rfl
